import Mathlib

/-!
Verification development for the ChainKey credential-issuance and
verification engine.

The repository ships the Anchor test suite, a CLI and a dashboard for the
on-chain program; the Rust program sources themselves are not part of the
checked-out tree.  The core engine (data model, lifecycle state machine,
verification algorithm, fixed-window rate limiter, scope authorization,
namespace manager) is therefore modelled from the specification, §3–§4.
The client-side helpers `keyStatus` (app/src/utils/chainkey.ts) and
`parseScope` (cli/index.js) are embedded directly from their sources.
-/

namespace ChainKey

/-- Modelled from the spec: §3/§4.5 — credential status, one of
Active, Suspended, Revoked (the latter terminal). -/
inductive KeyStatus where
  | Active
  | Suspended
  | Revoked
deriving DecidableEq, Repr

/-- Modelled from the spec: §7 error taxonomy (validation, authorization,
lifecycle, security, capacity and structural errors). -/
inductive ChainKeyError where
  | InvalidRateLimit
  | NameTooLong
  | DescriptionTooLong
  | InvalidKeyIndex
  | TooManyScopes
  | Unauthorized
  | KeyNotActive
  | KeyExpired
  | InvalidKey
  | InsufficientScope
  | RateLimitExceeded
  | ProjectHasKeys
deriving DecidableEq, Repr

/-- Modelled from the spec: §3 Project — a namespace owned by one identity.
Identities and the 16-byte namespace id are abstracted as naturals. -/
structure Project where
  owner : Nat
  namespace_id : Nat
  name : String
  description : String
  default_rate_limit : Nat
  total_credentials : Nat
  active_credentials : Nat
deriving DecidableEq, Repr

/-- Modelled from the spec: §3 Credential — one issued API key.  The 32-byte
secret hash is abstracted as a natural; `scopes` is the 64-bit permission
bitmask; the logical clock is a natural. -/
structure Credential where
  index : Nat
  name : String
  secret_hash : Nat
  scopes : Nat
  status : KeyStatus
  rate_limit : Nat
  expires_at : Option Nat
  created_at : Nat
  last_verified_at : Option Nat
  total_verifications : Nat
  failed_verifications : Nat
deriving DecidableEq, Repr

/-- Modelled from the spec: §3 UsageCounter — hot-path counter for one
credential (fixed-window rate limiting state). -/
structure UsageCounter where
  window_start : Nat
  request_count : Nat
  last_used_at : Nat
deriving DecidableEq, Repr

/-- Modelled from the spec: §4.3 Scope Authorization — pure function
`satisfies(granted, required) = ((granted & required) == required)`. -/
def satisfies (granted required : Nat) : Bool :=
  (granted &&& required) == required

/-- Modelled from the spec: §4.4 — the idempotent lazy window reset: if
`now - window_start >= window_duration`, the window is stale and
`window_start`/`request_count` are reset.  The logical clock is monotone,
so truncated subtraction agrees with the source arithmetic. -/
def lazyReset (usage : UsageCounter) (now window_duration : Nat) : UsageCounter :=
  if window_duration ≤ now - usage.window_start then
    { usage with window_start := now, request_count := 0 }
  else
    usage

/-- Modelled from the spec: §4.4 Rate Limiter — fixed-window `on_check`:
lazily reset the window, fail `RateLimitExceeded` when the count has
reached the limit, otherwise count this request. -/
def on_check (usage : UsageCounter) (limit now window_duration : Nat) :
    Except ChainKeyError UsageCounter :=
  let u := lazyReset usage now window_duration
  if limit ≤ u.request_count then
    .error .RateLimitExceeded
  else
    .ok { u with request_count := u.request_count + 1, last_used_at := now }

/-- Modelled from the spec: §4.6 step 2 — a credential is expired when
`expires_at` is set and `now ≥ expires_at`. -/
def isExpired (cred : Credential) (now : Nat) : Bool :=
  match cred.expires_at with
  | some e => e ≤ now
  | none => false

/-- Modelled from the spec: §4.6 step 4 — comparison of the presented hash
against the stored `secret_hash` (constant-time in the source; timing is
not modelled). -/
def hashMatches (cred : Credential) (presented_hash : Nat) : Bool :=
  presented_hash == cred.secret_hash

/-- Modelled from the spec: §4.6 step 5 — the brute-force lockout threshold:
when `failed_verifications` reaches 10 the credential is auto-revoked. -/
def failThreshold : Nat := 10

/-- The three records a `verify` call reads and mutates as one atomic unit
(spec §2, §4.6): the parent Project, the Credential and its UsageCounter. -/
structure VerifyState where
  project : Project
  credential : Credential
  usage : UsageCounter
deriving DecidableEq, Repr

deriving instance DecidableEq for Except

/-- Outcome of one atomic `verify` call: the reported result together with
the committed post-state.  Failures that the spec defines as
commit-on-failure (steps 5 and 6) carry their counter mutations here. -/
structure VerifyOutcome where
  result : Except ChainKeyError Unit
  state : VerifyState
deriving DecidableEq, Repr

/-- Modelled from the spec: §4.6 Verification Engine —
`verify(credential, usage, presented_hash, required_scope, now)`, the
seven steps as one atomic unit:
1. fail `KeyNotActive` unless status is Active (no mutation);
2. fail `KeyExpired` on expiry (no mutation);
3. the rate-limiter check of §4.4; per §7 a `RateLimitExceeded` failure
   commits no mutation;
4. hash comparison;
5. on mismatch commit `failed_verifications += 1`, on reaching 10 set
   status Revoked and decrement the project's `active_credentials`, and
   fail `InvalidKey`;
6. on match but unsatisfied scope fail `InsufficientScope`, committing
   only the rate counter (the hash-failure counter is untouched);
7. on full success reset `failed_verifications`, bump
   `total_verifications`, stamp `last_verified_at`. -/
def verify (st : VerifyState) (presented_hash required_scope now window_duration : Nat) :
    VerifyOutcome :=
  if st.credential.status ≠ KeyStatus.Active then
    { result := .error .KeyNotActive, state := st }
  else if isExpired st.credential now then
    { result := .error .KeyExpired, state := st }
  else
    match on_check st.usage st.credential.rate_limit now window_duration with
    | .error e => { result := .error e, state := st }
    | .ok u =>
      if hashMatches st.credential presented_hash then
        if satisfies st.credential.scopes required_scope then
          { result := .ok ()
            state := { st with
              credential := { st.credential with
                failed_verifications := 0
                total_verifications := st.credential.total_verifications + 1
                last_verified_at := some now }
              usage := u } }
        else
          { result := .error .InsufficientScope, state := { st with usage := u } }
      else
        let f := st.credential.failed_verifications + 1
        if f = failThreshold then
          { result := .error .InvalidKey
            state := {
              project := { st.project with
                active_credentials := st.project.active_credentials - 1 }
              credential := { st.credential with
                failed_verifications := f
                status := KeyStatus.Revoked }
              usage := u } }
        else
          { result := .error .InvalidKey
            state := { st with
              credential := { st.credential with failed_verifications := f }
              usage := u } }

/-- Iterated verification: the state after `n` successive `verify` calls
with the same presented hash, required scope and clock value (the test
suite's same-window loops). -/
def verifyN (st : VerifyState) (presented_hash required_scope now window_duration : Nat) :
    Nat → VerifyState
  | 0 => st
  | n + 1 =>
    (verify (verifyN st presented_hash required_scope now window_duration n)
      presented_hash required_scope now window_duration).state

/-- Modelled from the spec: §4.1 Namespace Manager —
`create_project(owner, namespace_id, name, description, default_rate_limit)`
with the constraints `default_rate_limit > 0` (else `InvalidRateLimit`),
`len(name) ≤ 64` (else `NameTooLong`), `len(description) ≤ 128`
(else `DescriptionTooLong`); on success a fresh Project with zeroed
counters is allocated. -/
def create_project (owner namespace_id : Nat) (name description : String)
    (default_rate_limit : Nat) : Except ChainKeyError Project :=
  if default_rate_limit = 0 then
    .error .InvalidRateLimit
  else if 64 < name.length then
    .error .NameTooLong
  else if 128 < description.length then
    .error .DescriptionTooLong
  else
    .ok {
      owner := owner
      namespace_id := namespace_id
      name := name
      description := description
      default_rate_limit := default_rate_limit
      total_credentials := 0
      active_credentials := 0 }

/-- Modelled from the spec: §4.2 Credential Issuance — caller must be the
project owner, `index` must equal the project's current
`total_credentials` (else `InvalidKeyIndex`); allocates the Credential
(Active, zeroed counters, rate limit defaulting to the project's) and its
paired UsageCounter (`window_start = now`, `request_count = 0`), and bumps
the project's credential counters. -/
def issue_credential (caller : Nat) (proj : Project) (index : Nat) (name : String)
    (secret_hash scopes : Nat) (expires_at : Option Nat)
    (rate_limit_override : Option Nat) (now : Nat) :
    Except ChainKeyError (Project × Credential × UsageCounter) :=
  if caller ≠ proj.owner then
    .error .Unauthorized
  else if index ≠ proj.total_credentials then
    .error .InvalidKeyIndex
  else
    .ok (
      { proj with
        total_credentials := proj.total_credentials + 1
        active_credentials := proj.active_credentials + 1 },
      { index := index
        name := name
        secret_hash := secret_hash
        scopes := scopes
        status := KeyStatus.Active
        rate_limit := rate_limit_override.getD proj.default_rate_limit
        expires_at := expires_at
        created_at := now
        last_verified_at := none
        total_verifications := 0
        failed_verifications := 0 },
      { window_start := now, request_count := 0, last_used_at := now })

/-- Modelled from the spec: §4.5 — `suspend` is the owner-issued
Active → Suspended transition; from any other status there is no such
transition and the attempt fails `KeyNotActive`. -/
def suspend_credential (caller : Nat) (proj : Project) (cred : Credential) :
    Except ChainKeyError Credential :=
  if caller ≠ proj.owner then
    .error .Unauthorized
  else
    match cred.status with
    | KeyStatus.Active => .ok { cred with status := KeyStatus.Suspended }
    | _ => .error .KeyNotActive

/-- Modelled from the spec: §4.5 — `reactivate` is the owner-issued
Suspended → Active transition; from any other status the attempt fails
`KeyNotActive` (Revoked is terminal). -/
def reactivate_credential (caller : Nat) (proj : Project) (cred : Credential) :
    Except ChainKeyError Credential :=
  if caller ≠ proj.owner then
    .error .Unauthorized
  else
    match cred.status with
    | KeyStatus.Suspended => .ok { cred with status := KeyStatus.Active }
    | _ => .error .KeyNotActive

/-- Modelled from the spec: §4.5 — `revoke` is the owner-issued transition
to the terminal Revoked state, available from Active and Suspended; a
Revoked credential has no outgoing transition, so the attempt fails
`KeyNotActive`. -/
def revoke_credential (caller : Nat) (proj : Project) (cred : Credential) :
    Except ChainKeyError Credential :=
  if caller ≠ proj.owner then
    .error .Unauthorized
  else
    match cred.status with
    | KeyStatus.Active => .ok { cred with status := KeyStatus.Revoked }
    | KeyStatus.Suspended => .ok { cred with status := KeyStatus.Revoked }
    | KeyStatus.Revoked => .error .KeyNotActive

/-- Modelled from the spec: §4.5 —
`rotate_credential(owner, credential, new_secret_hash)` is owner-only and
is not itself a state transition: it replaces `secret_hash`, resets
`total_verifications` and `failed_verifications` to 0, and does not change
`status`. -/
def rotate_credential (caller : Nat) (proj : Project) (cred : Credential)
    (new_secret_hash : Nat) : Except ChainKeyError Credential :=
  if caller ≠ proj.owner then
    .error .Unauthorized
  else
    .ok { cred with
      secret_hash := new_secret_hash
      total_verifications := 0
      failed_verifications := 0 }

/-- The five operations of the credential lifecycle named by the spec's
state machine section: verify (public) and the owner-issued suspend,
reactivate, revoke and rotate commands. -/
inductive LifecycleOp where
  | verifyOp (presented_hash required_scope now window_duration : Nat)
  | suspendOp
  | reactivateOp
  | revokeOp
  | rotateOp (new_secret_hash : Nat)
deriving DecidableEq, Repr

/-- Rotation is singled out by the spec as "not itself a state transition";
the other four operations are the state-machine events. -/
def LifecycleOp.isRotation : LifecycleOp → Bool
  | .rotateOp _ => true
  | _ => false

/-- Apply one lifecycle operation to a credential (with its project and
usage records), returning the reported result and the credential
afterwards; a failed operation leaves the credential unchanged. -/
def applyOp (caller : Nat) (st : VerifyState) :
    LifecycleOp → Except ChainKeyError Unit × Credential
  | .verifyOp p r now wd =>
    let o := verify st p r now wd
    (o.result, o.state.credential)
  | .suspendOp =>
    match suspend_credential caller st.project st.credential with
    | .ok c => (.ok (), c)
    | .error e => (.error e, st.credential)
  | .reactivateOp =>
    match reactivate_credential caller st.project st.credential with
    | .ok c => (.ok (), c)
    | .error e => (.error e, st.credential)
  | .revokeOp =>
    match revoke_credential caller st.project st.credential with
    | .ok c => (.ok (), c)
    | .error e => (.error e, st.credential)
  | .rotateOp h =>
    match rotate_credential caller st.project st.credential h with
    | .ok c => (.ok (), c)
    | .error e => (.error e, st.credential)

/-- A status value fetched from a credential account, as seen by the
dashboard's `keyStatus` (app/src/utils/chainkey.ts): either a nullish
value (null or undefined) or an object; for an object we record whether
the optional-chained accesses `status?.active` and `status?.suspended`
yield a defined value, and whether some other (unrecognised) field such as
`revoked` is present. -/
inductive StatusValue where
  | nullish
  | obj (hasActive hasSuspended hasOther : Bool)
deriving DecidableEq, Repr

/-- Whether `status?.active !== undefined` holds for the value. -/
def StatusValue.activeDefined : StatusValue → Bool
  | .nullish => false
  | .obj a _ _ => a

/-- Whether `status?.suspended !== undefined` holds for the value. -/
def StatusValue.suspendedDefined : StatusValue → Bool
  | .nullish => false
  | .obj _ s _ => s

/-- Embedded from app/src/utils/chainkey.ts `keyStatus`: report "Active"
when `status?.active !== undefined`, else "Suspended" when
`status?.suspended !== undefined`, else "Revoked". -/
def keyStatus (status : StatusValue) : String :=
  if status.activeDefined then "Active"
  else if status.suspendedDefined then "Suspended"
  else "Revoked"

/-- Value of a character as a hexadecimal digit, if it is one. -/
def hexDigitVal (c : Char) : Option Nat :=
  if '0' ≤ c ∧ c ≤ '9' then some (c.toNat - '0'.toNat)
  else if 'a' ≤ c ∧ c ≤ 'f' then some (c.toNat - 'a'.toNat + 10)
  else if 'A' ≤ c ∧ c ≤ 'F' then some (c.toNat - 'A'.toNat + 10)
  else none

/-- Value of a character as a decimal digit, if it is one. -/
def decDigitVal (c : Char) : Option Nat :=
  if '0' ≤ c ∧ c ≤ '9' then some (c.toNat - '0'.toNat) else none

/-- Value of a digit string in the given base, requiring every character to
be a valid digit and the string to be non-empty; `none` otherwise.  Models
the `bn.js` string constructor used by the CLI, which throws on invalid
input. -/
def strictDigits (digit : Char → Option Nat) (base : Nat) (cs : List Char) :
    Option Nat :=
  if cs.isEmpty then none
  else cs.foldlM (fun a c => (digit c).map (fun d => a * base + d)) 0

/-- Value of the longest valid-digit prefix of the characters, `none` when
there is no leading digit — the digit-consuming core of JavaScript
`parseInt`. -/
def prefixDigits (digit : Char → Option Nat) (base : Nat) (cs : List Char) :
    Option Nat :=
  strictDigits digit base (cs.takeWhile (fun c => (digit c).isSome))

/-- Radix detection of JavaScript `parseInt` with no explicit radix: a
`0x`/`0X` prefix switches to hexadecimal, otherwise decimal digits are
consumed. -/
def parseIntCore : List Char → Option Nat
  | '0' :: x :: rest =>
    if x = 'x' ∨ x = 'X' then prefixDigits hexDigitVal 16 rest
    else prefixDigits decDigitVal 10 ('0' :: x :: rest)
  | cs => prefixDigits decDigitVal 10 cs

/-- ASCII whitespace as trimmed by JavaScript string trimming (the CLI's
inputs are command-line arguments, so only ASCII whitespace arises). -/
def isJsSpace (c : Char) : Bool :=
  c = ' ' ∨ c = '\t' ∨ c = '\n' ∨ c = '\r' ∨ c = '\x0b' ∨ c = '\x0c'

/-- Whitespace trimming on both ends, as in JavaScript `trim()`. -/
def trimChars (cs : List Char) : List Char :=
  ((cs.dropWhile isJsSpace).reverse.dropWhile isJsSpace).reverse

/-- JavaScript `toLowerCase()` on the characters of an ASCII string. -/
def lowerChars (cs : List Char) : List Char :=
  cs.map Char.toLower

/-- Splitting on a separator character, as in JavaScript `split(",")`:
empty fields are kept. -/
def splitOnChar (sep : Char) : List Char → List (List Char)
  | [] => [[]]
  | c :: rest =>
    match splitOnChar sep rest with
    | [] => [[]]
    | g :: gs => if c = sep then [] :: g :: gs else (c :: g) :: gs

/-- JavaScript `startsWith("0x")` on the characters of the string. -/
def startsWith0x : List Char → Bool
  | '0' :: 'x' :: _ => true
  | _ => false

/-- JavaScript `parseInt(s)` (radix unspecified): skip surrounding
whitespace, accept an optional sign, detect a hex prefix, and parse the
longest digit prefix; `none` models `NaN`. -/
def parseIntJS (cs : List Char) : Option Int :=
  match trimChars cs with
  | '-' :: rest => (parseIntCore rest).map (fun n => -(n : Int))
  | '+' :: rest => (parseIntCore rest).map (fun n => (n : Int))
  | t => (parseIntCore t).map (fun n => (n : Int))

/-- Hexadecimal value of a character string, every character a hex digit;
models `new BN(str, 16)`, which throws (here `none`) on invalid input. -/
def hexStrVal (cs : List Char) : Option Nat :=
  strictDigits hexDigitVal 16 cs

/-- Decimal value of a character string, every character a decimal digit;
models the CLI's fallback `new BN(input)` on the nonnegative decimal
strings the CLI documents, `none` on anything the constructor rejects. -/
def decStrVal (cs : List Char) : Option Nat :=
  strictDigits decDigitVal 10 cs

/-- Embedded from cli/index.js `parseScope`: `new BN(0)` for a nullish or
empty input; the full 64-bit mask for "all" (case-insensitive) or "*";
`new BN(rest, 16)` for a `0x`-prefixed input; for a comma-separated input
the bitwise OR of `1 << parseInt(entry.trim())` over the entries, skipping
entries whose `parseInt` is `NaN`; otherwise `new BN(input)`.  A thrown
exception (invalid `BN` string, or `shln` of a negative amount) is
modelled as `none`.  The string operations act on the character list of
the input. -/
def parseScope (input : Option String) : Option Nat :=
  match input with
  | none => some 0
  | some s =>
    let cs := s.data
    if cs.isEmpty then some 0
    else if lowerChars cs = "all".data ∨ cs = "*".data then
      some 0xffffffffffffffff
    else if startsWith0x cs then hexStrVal (cs.drop 2)
    else if cs.contains ',' then
      (splitOnChar ',' cs).foldlM (fun mask b =>
        match parseIntJS b with
        | some n => if n < 0 then none else some (mask ||| (1 <<< n.toNat))
        | none => some mask) 0
    else decStrVal cs

/-- The comma-branch result written in the claim's own words: the bitwise
OR of `1 <<< b` over every numeric entry `b` of the list, skipping
non-numeric entries (`none` when an entry is numeric but negative, where
the CLI's `shln` would throw). -/
def scopeMaskOfEntries : List (List Char) → Option Nat
  | [] => some 0
  | e :: es =>
    match parseIntJS e with
    | some n =>
      if n < 0 then none
      else (scopeMaskOfEntries es).map (fun m => (1 <<< n.toNat) ||| m)
    | none => scopeMaskOfEntries es

/-! Helper lemmas shared by the claim theorems. -/

/-- A verify call on a Revoked credential fails `KeyNotActive` and leaves
all three records untouched. -/
theorem verify_revoked_eq (st : VerifyState) (p r now wd : Nat)
    (h : st.credential.status = KeyStatus.Revoked) :
    verify st p r now wd = ⟨.error .KeyNotActive, st⟩ := by
  simp [verify, h]

/-- Iterating verify any number of times over a Revoked credential leaves
the state fixed. -/
theorem verifyN_revoked_eq (st : VerifyState) (p r now wd : Nat)
    (h : st.credential.status = KeyStatus.Revoked) :
    ∀ k, verifyN st p r now wd k = st := by
  intro k
  induction k with
  | zero => rfl
  | succ n ih => simp [verifyN, ih, verify_revoked_eq st p r now wd h]

/-- The window reset is the identity when the call happens at the window's
start and the window duration is positive. -/
theorem lazyReset_fresh (u : UsageCounter) (now wd : Nat)
    (hW : u.window_start = now) (hwd : 0 < wd) :
    lazyReset u now wd = u := by
  have h : ¬ (wd ≤ now - u.window_start) := by rw [hW]; omega
  simp [lazyReset, h]

/-- One verify step with a wrong hash below the lockout threshold, taken at
the start of a fresh positive window: commits the incremented failure
counter and rate counter and fails `InvalidKey`. -/
theorem verify_wrong_step (st : VerifyState) (p r now wd : Nat)
    (hA : st.credential.status = KeyStatus.Active)
    (hE : st.credential.expires_at = none)
    (hW : st.usage.window_start = now)
    (hwd : 0 < wd)
    (hR : st.usage.request_count < st.credential.rate_limit)
    (hH : p ≠ st.credential.secret_hash)
    (hf : st.credential.failed_verifications + 1 ≠ 10) :
    verify st p r now wd =
      ⟨.error .InvalidKey,
        { project := st.project
          credential := { st.credential with
            failed_verifications := st.credential.failed_verifications + 1 }
          usage := { window_start := now
                     request_count := st.usage.request_count + 1
                     last_used_at := now } }⟩ := by
  have hlr := lazyReset_fresh st.usage now wd hW hwd
  have hnle : ¬ (st.credential.rate_limit ≤ st.usage.request_count) := by
    omega
  simp [verify, on_check, hlr, hnle, hA, isExpired, hE, hashMatches, hH,
    failThreshold, hf, hW]

/-- One verify step with a wrong hash that brings the failure counter to
the threshold: revokes the credential, decrements the project's active
count, and fails `InvalidKey`. -/
theorem verify_wrong_step_revoke (st : VerifyState) (p r now wd : Nat)
    (hA : st.credential.status = KeyStatus.Active)
    (hE : st.credential.expires_at = none)
    (hW : st.usage.window_start = now)
    (hwd : 0 < wd)
    (hR : st.usage.request_count < st.credential.rate_limit)
    (hH : p ≠ st.credential.secret_hash)
    (hf : st.credential.failed_verifications + 1 = 10) :
    verify st p r now wd =
      ⟨.error .InvalidKey,
        { project := { st.project with
            active_credentials := st.project.active_credentials - 1 }
          credential := { st.credential with
            failed_verifications := st.credential.failed_verifications + 1
            status := KeyStatus.Revoked }
          usage := { window_start := now
                     request_count := st.usage.request_count + 1
                     last_used_at := now } }⟩ := by
  have hlr := lazyReset_fresh st.usage now wd hW hwd
  have hnle : ¬ (st.credential.rate_limit ≤ st.usage.request_count) := by
    omega
  simp [verify, on_check, hlr, hnle, hA, isExpired, hE, hashMatches, hH,
    failThreshold, hf, hW]

/-- One fully successful verify step taken at the start of a fresh positive
window: resets the failure counter, bumps the success and rate counters,
stamps the clock. -/
theorem verify_correct_step (st : VerifyState) (p r now wd : Nat)
    (hA : st.credential.status = KeyStatus.Active)
    (hE : st.credential.expires_at = none)
    (hW : st.usage.window_start = now)
    (hwd : 0 < wd)
    (hR : st.usage.request_count < st.credential.rate_limit)
    (hH : p = st.credential.secret_hash)
    (hS : satisfies st.credential.scopes r = true) :
    verify st p r now wd =
      ⟨.ok (),
        { project := st.project
          credential := { st.credential with
            failed_verifications := 0
            total_verifications := st.credential.total_verifications + 1
            last_verified_at := some now }
          usage := { window_start := now
                     request_count := st.usage.request_count + 1
                     last_used_at := now } }⟩ := by
  have hlr := lazyReset_fresh st.usage now wd hW hwd
  have hnle : ¬ (st.credential.rate_limit ≤ st.usage.request_count) := by
    omega
  simp [verify, on_check, hlr, hnle, hA, isExpired, hE, hashMatches, hH, hS, hW]

/-- A verify call whose (lazily reset) window is already at the limit fails
`RateLimitExceeded` with no mutation. -/
theorem verify_rate_limited (st : VerifyState) (p r now wd : Nat)
    (hA : st.credential.status = KeyStatus.Active)
    (hE : isExpired st.credential now = false)
    (hR : st.credential.rate_limit ≤ (lazyReset st.usage now wd).request_count) :
    verify st p r now wd = ⟨.error .RateLimitExceeded, st⟩ := by
  simp [verify, on_check, hA, hE, hR]

/-! Claim theorems. -/

/-- C4: after every successful verify (correct hash, scope satisfied), the
credential's `failed_verifications` equals 0, regardless of its value
before the call. -/
theorem C4_successful_verify_resets_failed (st : VerifyState)
    (p r now wd : Nat)
    (hok : (verify st p r now wd).result = .ok ()) :
    (verify st p r now wd).state.credential.failed_verifications = 0 := by
  unfold verify at hok ⊢
  split at hok
  · simp at hok
  · split at hok
    · simp at hok
    · split at hok
      · simp at hok
      · split at hok
        · split at hok <;> simp_all
        · simp only [failThreshold] at hok ⊢
          split at hok <;> simp_all

/-- C4 witness: a concrete successful verification, with the hypothesis
evaluated at that input. -/
theorem C4_successful_verify_resets_failed_witness :
    (verify ⟨⟨1, 2, "p", "d", 1000, 1, 1⟩,
      ⟨0, "k", 42, 3, KeyStatus.Active, 1000, none, 5, none, 0, 7⟩,
      ⟨5, 0, 5⟩⟩ 42 1 5 216000).result = .ok () ∧
    (verify ⟨⟨1, 2, "p", "d", 1000, 1, 1⟩,
      ⟨0, "k", 42, 3, KeyStatus.Active, 1000, none, 5, none, 0, 7⟩,
      ⟨5, 0, 5⟩⟩ 42 1 5 216000).state.credential.failed_verifications = 0 :=
  ⟨by decide, C4_successful_verify_resets_failed _ 42 1 5 216000 (by decide)⟩

/-- C3: from `status == Revoked`, every lifecycle operation (verify,
suspend, reactivate, revoke, rotate) leaves the status Revoked — no
operation produces a successor state — and every attempted state-machine
transition (all of them except rotation, which the spec singles out as not
a state transition) fails with `KeyNotActive`. -/
theorem C3_revoked_is_terminal (caller : Nat) (st : VerifyState)
    (hR : st.credential.status = KeyStatus.Revoked)
    (hown : caller = st.project.owner) :
    ∀ op : LifecycleOp,
      (applyOp caller st op).2.status = KeyStatus.Revoked ∧
      (op.isRotation = false →
        (applyOp caller st op).1 = .error .KeyNotActive) := by
  intro op
  cases op with
  | verifyOp p r n w =>
    refine ⟨?_, fun _ => ?_⟩ <;>
      simp [applyOp, verify_revoked_eq st p r n w hR, hR]
  | suspendOp =>
    refine ⟨?_, fun _ => ?_⟩ <;>
      simp [applyOp, suspend_credential, hown, hR]
  | reactivateOp =>
    refine ⟨?_, fun _ => ?_⟩ <;>
      simp [applyOp, reactivate_credential, hown, hR]
  | revokeOp =>
    refine ⟨?_, fun _ => ?_⟩ <;>
      simp [applyOp, revoke_credential, hown, hR]
  | rotateOp h =>
    refine ⟨?_, fun hrot => ?_⟩
    · simp [applyOp, rotate_credential, hown, hR]
    · simp [LifecycleOp.isRotation] at hrot

/-- C3 witness: a concrete revoked credential and the suspend operation. -/
theorem C3_revoked_is_terminal_witness :
    (applyOp 1 ⟨⟨1, 2, "p", "d", 1000, 1, 0⟩,
      ⟨0, "k", 42, 3, KeyStatus.Revoked, 1000, none, 5, none, 0, 10⟩,
      ⟨5, 3, 5⟩⟩ LifecycleOp.suspendOp).2.status = KeyStatus.Revoked ∧
    (applyOp 1 ⟨⟨1, 2, "p", "d", 1000, 1, 0⟩,
      ⟨0, "k", 42, 3, KeyStatus.Revoked, 1000, none, 5, none, 0, 10⟩,
      ⟨5, 3, 5⟩⟩ LifecycleOp.suspendOp).1 = .error .KeyNotActive := by
  have h := C3_revoked_is_terminal 1 ⟨⟨1, 2, "p", "d", 1000, 1, 0⟩,
    ⟨0, "k", 42, 3, KeyStatus.Revoked, 1000, none, 5, none, 0, 10⟩,
    ⟨5, 3, 5⟩⟩ rfl rfl LifecycleOp.suspendOp
  exact ⟨h.1, h.2 rfl⟩

/-- C6: rotation replaces `secret_hash` with the new hash, resets
`total_verifications` and `failed_verifications` to 0 and leaves `status`
unchanged; and the hash-acceptance predicate of the rotated credential
accepts exactly the new hash, so (old and new hash distinct) at no point
are the old and new hash both rejected or both accepted. -/
theorem C6_rotate_replaces_hash_resets_counters (caller : Nat)
    (proj : Project) (cred : Credential) (nh : Nat)
    (hown : caller = proj.owner) :
    ∃ c : Credential,
      rotate_credential caller proj cred nh = .ok c ∧
      c.secret_hash = nh ∧
      c.total_verifications = 0 ∧
      c.failed_verifications = 0 ∧
      c.status = cred.status ∧
      (∀ h : Nat, hashMatches c h = true ↔ h = nh) ∧
      (cred.secret_hash ≠ nh →
        ¬(hashMatches c cred.secret_hash = true ∧ hashMatches c nh = true) ∧
        (hashMatches c cred.secret_hash = true ∨ hashMatches c nh = true)) := by
  refine ⟨{ cred with
      secret_hash := nh
      total_verifications := 0
      failed_verifications := 0 }, ?_, rfl, rfl, rfl, rfl, ?_, ?_⟩
  · simp [rotate_credential, hown]
  · intro h
    simp [hashMatches]
  · intro hne
    refine ⟨?_, Or.inr ?_⟩
    · rintro ⟨h1, _⟩
      simp [hashMatches] at h1
      exact hne h1
    · simp [hashMatches]

/-- C6 witness: rotation of a concrete suspended credential. -/
theorem C6_rotate_replaces_hash_resets_counters_witness :
    (7 : Nat) = (⟨7, 0, "p", "d", 5, 1, 1⟩ : Project).owner ∧
    ∃ c : Credential,
      rotate_credential 7 ⟨7, 0, "p", "d", 5, 1, 1⟩
        ⟨0, "k", 42, 3, KeyStatus.Suspended, 5, none, 0, none, 4, 9⟩ 99 = .ok c ∧
      c.secret_hash = 99 ∧
      c.total_verifications = 0 ∧
      c.failed_verifications = 0 ∧
      c.status = (⟨0, "k", 42, 3, KeyStatus.Suspended, 5, none, 0, none, 4, 9⟩ :
        Credential).status ∧
      (∀ h : Nat, hashMatches c h = true ↔ h = 99) ∧
      ((⟨0, "k", 42, 3, KeyStatus.Suspended, 5, none, 0, none, 4, 9⟩ :
          Credential).secret_hash ≠ 99 →
        ¬(hashMatches c (⟨0, "k", 42, 3, KeyStatus.Suspended, 5, none, 0, none,
            4, 9⟩ : Credential).secret_hash = true ∧ hashMatches c 99 = true) ∧
        (hashMatches c (⟨0, "k", 42, 3, KeyStatus.Suspended, 5, none, 0, none,
            4, 9⟩ : Credential).secret_hash = true ∨ hashMatches c 99 = true)) :=
  ⟨rfl, C6_rotate_replaces_hash_resets_counters 7 _ _ 99 rfl⟩

/-- C8: `create_project` fails `InvalidRateLimit` when the default rate
limit is not positive, `NameTooLong` when (the rate limit being valid) the
name exceeds 64 characters, and `DescriptionTooLong` when (the earlier
constraints holding) the description exceeds 128 characters; any returned
Project witnesses that all three constraints held, so in each failure case
no Project record is created. -/
theorem C8_create_project_validation (owner nsid : Nat)
    (name description : String) (rl : Nat) :
    (rl = 0 →
      create_project owner nsid name description rl = .error .InvalidRateLimit) ∧
    (0 < rl → 64 < name.length →
      create_project owner nsid name description rl = .error .NameTooLong) ∧
    (0 < rl → name.length ≤ 64 → 128 < description.length →
      create_project owner nsid name description rl =
        .error .DescriptionTooLong) ∧
    (∀ p : Project, create_project owner nsid name description rl = .ok p →
      0 < rl ∧ name.length ≤ 64 ∧ description.length ≤ 128) := by
  refine ⟨fun h => by simp [create_project, h], ?_, ?_, ?_⟩
  · intro h1 h2
    have hne : ¬ rl = 0 := by omega
    simp [create_project, hne, h2]
  · intro h1 h2 h3
    have hne : ¬ rl = 0 := by omega
    have hn : ¬ 64 < name.length := by omega
    simp [create_project, hne, hn, h3]
  · intro p hp
    unfold create_project at hp
    split at hp
    · simp at hp
    · split at hp
      · simp at hp
      · split at hp
        · simp at hp
        · omega

/-- C8 witness: the zero rate limit case at a concrete input. -/
theorem C8_create_project_validation_witness :
    (0 : Nat) = 0 ∧
    create_project 1 2 "My App" "demo" 0 = .error .InvalidRateLimit :=
  ⟨rfl, (C8_create_project_validation 1 2 "My App" "demo" 0).1 rfl⟩

/-- C9: `keyStatus` returns "Active" exactly when the fetched status value
has a defined `active` field, "Suspended" exactly when it has no defined
`active` field but a defined `suspended` field, and "Revoked" for every
other input — including null, undefined, and unrecognised statuses. -/
theorem C9_keyStatus_classification :
    ∀ v : StatusValue,
      (keyStatus v = "Active" ↔ v.activeDefined = true) ∧
      (keyStatus v = "Suspended" ↔
        (v.activeDefined = false ∧ v.suspendedDefined = true)) ∧
      ((v.activeDefined = false ∧ v.suspendedDefined = false) →
        keyStatus v = "Revoked") := by
  intro v
  cases v with
  | nullish => decide
  | obj a s o => cases a <;> cases s <;> cases o <;> decide

/-- C9 witness: an unrecognised one-field status object is reported
Revoked. -/
theorem C9_keyStatus_classification_witness :
    keyStatus (StatusValue.obj false false true) = "Revoked" :=
  (C9_keyStatus_classification (StatusValue.obj false false true)).2.2 ⟨rfl, rfl⟩

/-- C1: on a verify call against an Active, unexpired credential within
its rate limit, a wrong presented hash increments `failed_verifications`
by exactly 1 and fails `InvalidKey`; if the counter thereby reaches 10 the
status becomes Revoked and the project's `active_credentials` is
decremented, and otherwise status and project are untouched. -/
theorem C1_hash_mismatch_commits_and_fails (st : VerifyState)
    (p r now wd : Nat)
    (hA : st.credential.status = KeyStatus.Active)
    (hE : isExpired st.credential now = false)
    (hR : (lazyReset st.usage now wd).request_count < st.credential.rate_limit)
    (hH : p ≠ st.credential.secret_hash) :
    (verify st p r now wd).result = .error .InvalidKey ∧
    (verify st p r now wd).state.credential.failed_verifications =
      st.credential.failed_verifications + 1 ∧
    (st.credential.failed_verifications + 1 = 10 →
      (verify st p r now wd).state.credential.status = KeyStatus.Revoked ∧
      (verify st p r now wd).state.project.active_credentials =
        st.project.active_credentials - 1) ∧
    (st.credential.failed_verifications + 1 ≠ 10 →
      (verify st p r now wd).state.credential.status = st.credential.status ∧
      (verify st p r now wd).state.project = st.project) := by
  have hnle : ¬ (st.credential.rate_limit ≤
      (lazyReset st.usage now wd).request_count) := by omega
  by_cases hf : st.credential.failed_verifications + 1 = 10 <;>
    simp [verify, on_check, hnle, hA, hE, hashMatches, hH, failThreshold, hf]

/-- C1 witness: a ninth previous failure plus one more mismatch revokes a
concrete credential. -/
theorem C1_hash_mismatch_commits_and_fails_witness :
    (verify ⟨⟨1, 2, "p", "d", 1000, 1, 1⟩,
      ⟨0, "k", 42, 3, KeyStatus.Active, 1000, none, 5, none, 0, 9⟩,
      ⟨5, 0, 5⟩⟩ 41 0 5 100).result = .error .InvalidKey ∧
    (verify ⟨⟨1, 2, "p", "d", 1000, 1, 1⟩,
      ⟨0, "k", 42, 3, KeyStatus.Active, 1000, none, 5, none, 0, 9⟩,
      ⟨5, 0, 5⟩⟩ 41 0 5 100).state.credential.status = KeyStatus.Revoked ∧
    (verify ⟨⟨1, 2, "p", "d", 1000, 1, 1⟩,
      ⟨0, "k", 42, 3, KeyStatus.Active, 1000, none, 5, none, 0, 9⟩,
      ⟨5, 0, 5⟩⟩ 41 0 5 100).state.project.active_credentials = 0 := by
  have h := C1_hash_mismatch_commits_and_fails ⟨⟨1, 2, "p", "d", 1000, 1, 1⟩,
    ⟨0, "k", 42, 3, KeyStatus.Active, 1000, none, 5, none, 0, 9⟩,
    ⟨5, 0, 5⟩⟩ 41 0 5 100 rfl rfl (by decide) (by decide)
  exact ⟨h.1, (h.2.2.1 rfl).1, (h.2.2.1 rfl).2⟩

/-- C7: a verify call whose presented hash matches but whose granted scope
bitmask does not satisfy the requirement fails `InsufficientScope` and
leaves `failed_verifications` unchanged; `satisfies` is the pure bitmask
test `(granted &&& required) == required`, and a requirement of 0 is
satisfied by every grant. -/
theorem C7_insufficient_scope_pure_rejection (st : VerifyState)
    (p r now wd : Nat)
    (hA : st.credential.status = KeyStatus.Active)
    (hE : isExpired st.credential now = false)
    (hR : (lazyReset st.usage now wd).request_count < st.credential.rate_limit)
    (hH : hashMatches st.credential p = true)
    (hS : satisfies st.credential.scopes r = false) :
    (verify st p r now wd).result = .error .InsufficientScope ∧
    (verify st p r now wd).state.credential.failed_verifications =
      st.credential.failed_verifications ∧
    (∀ g : Nat, satisfies g 0 = true) ∧
    (∀ g req : Nat, satisfies g req = ((g &&& req) == req)) := by
  have hnle : ¬ (st.credential.rate_limit ≤
      (lazyReset st.usage now wd).request_count) := by omega
  refine ⟨?_, ?_, ?_, fun g req => rfl⟩
  · simp [verify, on_check, hnle, hA, hE, hH, hS]
  · simp [verify, on_check, hnle, hA, hE, hH, hS]
  · intro g
    simp [satisfies]

/-- C7 witness: the spec's scenario — scopes 0b011, requirement 0b100. -/
theorem C7_insufficient_scope_pure_rejection_witness :
    (verify ⟨⟨1, 2, "p", "d", 1000, 1, 1⟩,
      ⟨0, "k", 42, 3, KeyStatus.Active, 1000, none, 5, none, 0, 2⟩,
      ⟨5, 0, 5⟩⟩ 42 4 5 100).result = .error .InsufficientScope ∧
    (verify ⟨⟨1, 2, "p", "d", 1000, 1, 1⟩,
      ⟨0, "k", 42, 3, KeyStatus.Active, 1000, none, 5, none, 0, 2⟩,
      ⟨5, 0, 5⟩⟩ 42 4 5 100).state.credential.failed_verifications = 2 := by
  have h := C7_insufficient_scope_pure_rejection ⟨⟨1, 2, "p", "d", 1000, 1, 1⟩,
    ⟨0, "k", 42, 3, KeyStatus.Active, 1000, none, 5, none, 0, 2⟩,
    ⟨5, 0, 5⟩⟩ 42 4 5 100 rfl rfl (by decide) (by decide) (by decide)
  exact ⟨h.1, h.2.1⟩

/-- Invariant of a same-window brute-force run on a fresh credential: after
`i ≤ 9` wrong-hash attempts the credential is still Active with
`failed_verifications = i` and the window shows `i` requests. -/
theorem verifyN_wrong_invariant (proj : Project) (cred : Credential)
    (r now wd wrong : Nat)
    (hA : cred.status = KeyStatus.Active)
    (hE : cred.expires_at = none)
    (hF : cred.failed_verifications = 0)
    (hrl : 10 ≤ cred.rate_limit)
    (hwd : 0 < wd)
    (hH : wrong ≠ cred.secret_hash) :
    ∀ i, i ≤ 9 →
      verifyN ⟨proj, cred, ⟨now, 0, now⟩⟩ wrong r now wd i =
        ⟨proj, { cred with failed_verifications := i }, ⟨now, i, now⟩⟩ := by
  intro i
  induction i with
  | zero =>
    intro _
    show (⟨proj, cred, ⟨now, 0, now⟩⟩ : VerifyState) = _
    cases cred
    simp_all
  | succ n ih =>
    intro hn
    have hst := ih (by omega)
    rw [verifyN, hst,
      verify_wrong_step ⟨proj, { cred with failed_verifications := n },
          ⟨now, n, now⟩⟩ wrong r now wd
        (by simpa using hA) (by simpa using hE) rfl hwd
        (by change n < cred.rate_limit; omega)
        (by change wrong ≠ cred.secret_hash; exact hH)
        (by change n + 1 ≠ 10; omega)]

/-- The tenth same-window wrong-hash attempt on a fresh credential revokes
it: `failed_verifications` reaches 10, status flips to Revoked, and the
project's active count drops by one. -/
theorem verifyN_wrong_revoke_at_10 (proj : Project) (cred : Credential)
    (r now wd wrong : Nat)
    (hA : cred.status = KeyStatus.Active)
    (hE : cred.expires_at = none)
    (hF : cred.failed_verifications = 0)
    (hrl : 10 ≤ cred.rate_limit)
    (hwd : 0 < wd)
    (hH : wrong ≠ cred.secret_hash) :
    verifyN ⟨proj, cred, ⟨now, 0, now⟩⟩ wrong r now wd 10 =
      ⟨{ proj with active_credentials := proj.active_credentials - 1 },
       { cred with failed_verifications := 10, status := KeyStatus.Revoked },
       ⟨now, 10, now⟩⟩ := by
  have h9 := verifyN_wrong_invariant proj cred r now wd wrong
    hA hE hF hrl hwd hH 9 (by omega)
  rw [show (10 : Nat) = 9 + 1 from rfl, verifyN, h9,
    verify_wrong_step_revoke ⟨proj, { cred with failed_verifications := 9 },
        ⟨now, 9, now⟩⟩ wrong r now wd
      (by simpa using hA) (by simpa using hE) rfl hwd
      (by change 9 < cred.rate_limit; omega)
      (by change wrong ≠ cred.secret_hash; exact hH)
      (by change 9 + 1 = 10; rfl)]

/-- C2 counterexample: not every freshly issued credential is revoked by
ten wrong-hash verify calls.  A credential issued under a default rate
limit of 3 stays Active with `failed_verifications = 3` after ten
same-window wrong-hash calls, because from the fourth call on the
rate-limiter check (step 3) fails `RateLimitExceeded` before the hash is
ever compared. -/
theorem C2_rate_limited_key_not_revoked :
    issue_credential 1 ⟨1, 2, "p", "d", 3, 0, 0⟩ 0 "k" 42 1 none none 5 =
      .ok (⟨1, 2, "p", "d", 3, 1, 1⟩,
        ⟨0, "k", 42, 1, KeyStatus.Active, 3, none, 5, none, 0, 0⟩,
        ⟨5, 0, 5⟩) ∧
    (verifyN ⟨⟨1, 2, "p", "d", 3, 1, 1⟩,
      ⟨0, "k", 42, 1, KeyStatus.Active, 3, none, 5, none, 0, 0⟩,
      ⟨5, 0, 5⟩⟩ 41 0 5 100 10).credential.status = KeyStatus.Active ∧
    (verifyN ⟨⟨1, 2, "p", "d", 3, 1, 1⟩,
      ⟨0, "k", 42, 1, KeyStatus.Active, 3, none, 5, none, 0, 0⟩,
      ⟨5, 0, 5⟩⟩ 41 0 5 100 10).credential.failed_verifications = 3 := by
  decide

/-- C2 (amended): for a freshly issued credential whose rate limit is at
least the lockout threshold of 10, ten same-window verify calls with a
wrong presented hash leave the credential Revoked after the tenth call,
and every subsequent verify call with the correct hash fails with
`KeyNotActive`. -/
theorem C2_brute_force_auto_revokes (caller : Nat) (proj p' : Project)
    (c : Credential) (u : UsageCounter) (idx : Nat) (name : String)
    (hash scopes : Nat) (rlo : Option Nat) (now wd wrong r : Nat)
    (hiss : issue_credential caller proj idx name hash scopes none rlo now =
      .ok (p', c, u))
    (hrl : 10 ≤ rlo.getD proj.default_rate_limit)
    (hwd : 0 < wd)
    (hwrong : wrong ≠ hash) :
    (verifyN ⟨p', c, u⟩ wrong r now wd 10).credential.status =
      KeyStatus.Revoked ∧
    (∀ k now2 wd2 r2,
      (verify (verifyN (verifyN ⟨p', c, u⟩ wrong r now wd 10)
          hash r2 now2 wd2 k) hash r2 now2 wd2).result =
        .error .KeyNotActive) := by
  unfold issue_credential at hiss
  split at hiss
  · simp at hiss
  · split at hiss
    · simp at hiss
    · simp only [Except.ok.injEq, Prod.mk.injEq] at hiss
      obtain ⟨hp', hc, hu⟩ := hiss
      subst hp' hc hu
      have h10 := verifyN_wrong_revoke_at_10
        { proj with
          total_credentials := proj.total_credentials + 1
          active_credentials := proj.active_credentials + 1 }
        ⟨idx, name, hash, scopes, KeyStatus.Active,
          rlo.getD proj.default_rate_limit, none, now, none, 0, 0⟩
        r now wd wrong rfl rfl rfl hrl hwd hwrong
      refine ⟨by rw [h10], ?_⟩
      intro k now2 wd2 r2
      rw [h10, verifyN_revoked_eq _ hash r2 now2 wd2 rfl k,
        verify_revoked_eq _ hash r2 now2 wd2 rfl]

/-- C2 witness: a concrete issuance followed by ten wrong-hash calls and a
subsequent correct-hash call. -/
theorem C2_brute_force_auto_revokes_witness :
    (verifyN ⟨⟨1, 2, "p", "d", 1000, 1, 1⟩,
      ⟨0, "key", 42, 3, KeyStatus.Active, 1000, none, 5, none, 0, 0⟩,
      ⟨5, 0, 5⟩⟩ 41 0 5 100 10).credential.status = KeyStatus.Revoked ∧
    (verify (verifyN (verifyN ⟨⟨1, 2, "p", "d", 1000, 1, 1⟩,
      ⟨0, "key", 42, 3, KeyStatus.Active, 1000, none, 5, none, 0, 0⟩,
      ⟨5, 0, 5⟩⟩ 41 0 5 100 10) 42 0 7 100 0) 42 0 7 100).result =
      .error .KeyNotActive := by
  have h := C2_brute_force_auto_revokes 1 ⟨1, 2, "p", "d", 1000, 0, 0⟩
    ⟨1, 2, "p", "d", 1000, 1, 1⟩
    ⟨0, "key", 42, 3, KeyStatus.Active, 1000, none, 5, none, 0, 0⟩
    ⟨5, 0, 5⟩ 0 "key" 42 3 none 5 100 41 0
    (by decide) (by decide) (by decide) (by decide)
  exact ⟨h.1, h.2 0 7 100 0⟩

/-- Invariant of a same-window run of successful verifications: after
`i` calls within the rate limit the window shows exactly `i` requests and
the success counter has grown by `i`. -/
theorem verifyN_correct_invariant (proj : Project) (cred : Credential)
    (r now wd p : Nat)
    (hA : cred.status = KeyStatus.Active)
    (hE : cred.expires_at = none)
    (hH : p = cred.secret_hash)
    (hS : satisfies cred.scopes r = true)
    (hwd : 0 < wd) :
    ∀ i, i ≤ cred.rate_limit →
      verifyN ⟨proj, cred, ⟨now, 0, now⟩⟩ p r now wd i =
        ⟨proj,
         { cred with
           failed_verifications :=
             if i = 0 then cred.failed_verifications else 0
           total_verifications := cred.total_verifications + i
           last_verified_at :=
             if i = 0 then cred.last_verified_at else some now },
         ⟨now, i, now⟩⟩ := by
  intro i
  induction i with
  | zero =>
    intro _
    show (⟨proj, cred, ⟨now, 0, now⟩⟩ : VerifyState) = _
    cases cred
    simp
  | succ n ih =>
    intro hn
    have hst := ih (by omega)
    rw [verifyN, hst,
      verify_correct_step ⟨proj,
          { cred with
            failed_verifications :=
              if n = 0 then cred.failed_verifications else 0
            total_verifications := cred.total_verifications + n
            last_verified_at :=
              if n = 0 then cred.last_verified_at else some now },
          ⟨now, n, now⟩⟩ p r now wd
        (by simpa using hA) (by simpa using hE) rfl hwd
        (by change n < cred.rate_limit; omega)
        (by change p = cred.secret_hash; exact hH)
        (by change satisfies cred.scopes r = true; exact hS)]
    have h1 : n + 1 ≠ 0 := Nat.succ_ne_zero n
    simp only [VerifyState.mk.injEq, Credential.mk.injEq, UsageCounter.mk.injEq,
      if_neg h1, and_true, true_and]
    omega

/-- Any accepted verification leaves the window's request count within the
credential's rate limit. -/
theorem verify_ok_request_count_le (st : VerifyState) (p r now wd : Nat)
    (hok : (verify st p r now wd).result = .ok ()) :
    (verify st p r now wd).state.usage.request_count ≤
      st.credential.rate_limit := by
  unfold verify at hok ⊢
  split at hok
  · simp at hok
  · split at hok
    · simp at hok
    · split at hok
      · simp at hok
      · rename_i u heq
        have hcount : u.request_count ≤ st.credential.rate_limit := by
          unfold on_check at heq
          simp only [] at heq
          split at heq
          · simp at heq
          · rename_i hlt
            simp only [Except.ok.injEq] at heq
            subst heq
            change (lazyReset st.usage now wd).request_count + 1 ≤
              st.credential.rate_limit
            omega
        split at hok
        · split at hok
          · simp_all
          · simp at hok
        · simp only [failThreshold] at hok ⊢
          split at hok <;> simp_all

/-- C5: with `rate_limit = 3`, three successful same-window verifies all
succeed, leaving `request_count = 3`, and a fourth verify in the same
window fails `RateLimitExceeded`; and in general the request count never
exceeds the credential's rate limit after an accepted verification. -/
theorem C5_rate_limit_boundary (proj : Project) (cred : Credential)
    (r now wd p : Nat)
    (hA : cred.status = KeyStatus.Active)
    (hE : cred.expires_at = none)
    (hH : p = cred.secret_hash)
    (hS : satisfies cred.scopes r = true)
    (hwd : 0 < wd)
    (hrl : cred.rate_limit = 3) :
    ((verify (verifyN ⟨proj, cred, ⟨now, 0, now⟩⟩ p r now wd 0)
        p r now wd).result = .ok () ∧
     (verify (verifyN ⟨proj, cred, ⟨now, 0, now⟩⟩ p r now wd 1)
        p r now wd).result = .ok () ∧
     (verify (verifyN ⟨proj, cred, ⟨now, 0, now⟩⟩ p r now wd 2)
        p r now wd).result = .ok () ∧
     (verifyN ⟨proj, cred, ⟨now, 0, now⟩⟩ p r now wd 3).usage.request_count =
       3 ∧
     (verify (verifyN ⟨proj, cred, ⟨now, 0, now⟩⟩ p r now wd 3)
        p r now wd).result = .error .RateLimitExceeded) ∧
    (∀ st' : VerifyState, ∀ p' r' n' w' : Nat,
      (verify st' p' r' n' w').result = .ok () →
      (verify st' p' r' n' w').state.usage.request_count ≤
        st'.credential.rate_limit) := by
  have hinv := verifyN_correct_invariant proj cred r now wd p hA hE hH hS hwd
  have hok : ∀ i, i < 3 →
      (verify (verifyN ⟨proj, cred, ⟨now, 0, now⟩⟩ p r now wd i)
        p r now wd).result = .ok () := by
    intro i hi
    rw [hinv i (by omega),
      verify_correct_step _ p r now wd
        (by simpa using hA) (by simpa using hE) rfl hwd
        (by change i < cred.rate_limit; omega)
        (by change p = cred.secret_hash; exact hH)
        (by change satisfies cred.scopes r = true; exact hS)]
  refine ⟨⟨hok 0 (by omega), hok 1 (by omega), hok 2 (by omega), ?_, ?_⟩,
    fun st' p' r' n' w' h => verify_ok_request_count_le st' p' r' n' w' h⟩
  · rw [hinv 3 (by omega)]
  · rw [hinv 3 (by omega),
      verify_rate_limited _ p r now wd (by simpa using hA)
        (by simp [isExpired, hE])
        (by rw [lazyReset_fresh _ now wd rfl hwd]
            change cred.rate_limit ≤ 3; omega)]

/-- C5 witness: a concrete credential with rate limit 3 and a satisfied
scope. -/
theorem C5_rate_limit_boundary_witness :
    (verify (verifyN ⟨⟨1, 2, "p", "d", 3, 1, 1⟩,
      ⟨0, "k", 42, 1, KeyStatus.Active, 3, none, 5, none, 0, 0⟩,
      ⟨5, 0, 5⟩⟩ 42 1 5 100 0) 42 1 5 100).result = .ok () ∧
    (verifyN ⟨⟨1, 2, "p", "d", 3, 1, 1⟩,
      ⟨0, "k", 42, 1, KeyStatus.Active, 3, none, 5, none, 0, 0⟩,
      ⟨5, 0, 5⟩⟩ 42 1 5 100 3).usage.request_count = 3 ∧
    (verify (verifyN ⟨⟨1, 2, "p", "d", 3, 1, 1⟩,
      ⟨0, "k", 42, 1, KeyStatus.Active, 3, none, 5, none, 0, 0⟩,
      ⟨5, 0, 5⟩⟩ 42 1 5 100 3) 42 1 5 100).result =
      .error .RateLimitExceeded := by
  have h := C5_rate_limit_boundary ⟨1, 2, "p", "d", 3, 1, 1⟩
    ⟨0, "k", 42, 1, KeyStatus.Active, 3, none, 5, none, 0, 0⟩
    1 5 100 42 rfl rfl rfl (by decide) (by decide) rfl
  exact ⟨h.1.1, h.1.2.2.2.1, h.1.2.2.2.2⟩

/-- The CLI's left fold over the comma-separated entries computes the
claim's bitwise OR of the entries' bits, joined onto the accumulator. -/
theorem foldlM_scopeMask (es : List (List Char)) (acc : Nat) :
    es.foldlM (fun mask b =>
      match parseIntJS b with
      | some n => if n < 0 then none else some (mask ||| (1 <<< n.toNat))
      | none => some mask) acc =
    (scopeMaskOfEntries es).map (fun m => acc ||| m) := by
  induction es generalizing acc with
  | nil => simp [scopeMaskOfEntries]
  | cons e es ih =>
    cases hpe : parseIntJS e with
    | none => simp [List.foldlM_cons, scopeMaskOfEntries, hpe, ih]
    | some n =>
      by_cases hn : n < 0
      · simp [List.foldlM_cons, scopeMaskOfEntries, hpe, hn]
      · simp only [List.foldlM_cons, scopeMaskOfEntries, hpe, hn, if_neg hn, ih]
        cases scopeMaskOfEntries es <;>
          simp [Nat.lor_assoc]

/-- C10: `parseScope` returns 0 for a null or empty input, the full 64-bit
mask for "all" (case-insensitive) or "*", the hexadecimal value of the
rest of the string for a `0x`-prefixed input, and for a comma-separated
input the bitwise OR of `1 << b` over every numeric entry `b`, skipping
non-numeric entries; illustrated by concrete inputs. -/
theorem C10_parseScope_classes :
    (parseScope none = some 0 ∧ parseScope (some "") = some 0) ∧
    (∀ s : String, s.data ≠ [] →
      (lowerChars s.data = "all".data ∨ s.data = "*".data) →
      parseScope (some s) = some 0xffffffffffffffff) ∧
    (∀ s : String, s.data ≠ [] →
      ¬(lowerChars s.data = "all".data ∨ s.data = "*".data) →
      startsWith0x s.data = true →
      parseScope (some s) = hexStrVal (s.data.drop 2)) ∧
    (∀ s : String, s.data ≠ [] →
      ¬(lowerChars s.data = "all".data ∨ s.data = "*".data) →
      startsWith0x s.data = false →
      s.data.contains ',' = true →
      parseScope (some s) = scopeMaskOfEntries (splitOnChar ',' s.data)) ∧
    (parseScope (some "ALL") = some 0xffffffffffffffff ∧
     parseScope (some "0xff") = some 255 ∧
     parseScope (some "0,1") = some 3 ∧
     parseScope (some "1, 3 ,x") = some 10 ∧
     parseScope (some "0,1,abc,2") = some 7) := by
  have hempty : ∀ s : String, s.data ≠ [] → s.data.isEmpty = false := by
    intro s h
    cases hs : s.data with
    | nil => exact absurd hs h
    | cons c cs => rfl
  refine ⟨⟨rfl, rfl⟩, ?_, ?_, ?_, by decide, by decide, by decide, by decide,
    by decide⟩
  · intro s hne hall
    simp [parseScope, hempty s hne, hall]
  · intro s hne hall hpre
    simp [parseScope, hempty s hne, hall, hpre]
  · intro s hne hall hpre hc
    simp only [parseScope, hempty s hne, hall, hpre, hc, Bool.false_eq_true,
      if_false, if_true, ite_false, ite_true]
    rw [foldlM_scopeMask]
    cases scopeMaskOfEntries (splitOnChar ',' s.data) <;> simp

/-- C10 witness: the hex branch at the concrete input "0xff". -/
theorem C10_parseScope_classes_witness :
    parseScope (some "0xff") = hexStrVal (("0xff" : String).data.drop 2) :=
  C10_parseScope_classes.2.2.1 "0xff" (by decide) (by decide) (by decide)

end ChainKey
